import Mathlib

/-!
# Purik dashboard: the sensor update logic of `script.js`

A shallow embedding of the state and the functions of `src/script.js`
(`setIP`, `updateData`, `updateRadar`, `updateIR`, `updateDHT`) followed by
theorems about them.

Modelling conventions.

* The script's global variables are the fields of `State`, under their source
  names.  Every function of the script becomes a function `State → … → State`.
* The outside world the script talks to is recorded in three traces kept in the
  state: `plotly` (the calls made to the charting library after start-up, in
  order), `console` (the console entries written) and `fetches` (the URLs
  requested).  What a call "issues" is what it appends to these traces.
* The IR, temperature and humidity readings are JavaScript Numbers
  (`JSNumber`): doubles, with the arithmetic of doubles.  A radar sample carries
  an integer angle and an integer distance (`Int`).  A missing sub-object or a
  missing field reads as `undefined` in JavaScript and is `none` here.
* `updateData` is an `async` function.  One call is modelled as one atomic
  step whose network result is supplied by an oracle `net`; interleaving of
  several calls in flight is outside the model.
-/

namespace Purik

/-! ## Values -/

/-- JavaScript Number values other than `NaN`: the two infinities and the
finite doubles, a finite double being given by its exact value `q` (the two
zeros are not told apart).  `NaN` is left out: `JSON.parse` never yields it and
none of the operations below produces it from these values. -/
inductive JSNumber where
  | negInfinity
  | finite (q : ℚ)
  | infinity
  deriving DecidableEq, Repr

/-- The values of the finite doubles: `m * 2 ^ e` with a significand of at most
53 bits and an exponent between -1074 and 971. -/
def isDouble (q : ℚ) : Prop :=
  ∃ m e : ℤ, |m| < 2 ^ 53 ∧ -1074 ≤ e ∧ e ≤ 971 ∧ q = m * 2 ^ e

/-- The exponent of the spacing of the doubles around `q`: 52 below the binary
exponent of `q`, which is at least -1022 (below it the doubles are subnormal). -/
def ulpExponent (q : ℚ) : ℤ := max (Int.log 2 |q|) (-1022) - 52

/-- The integer nearest to `x`, the even one of the two when `x` is halfway. -/
def roundHalfEven (x : ℚ) : ℤ :=
  if x - ⌊x⌋ < 1 / 2 then ⌊x⌋
  else if 1 / 2 < x - ⌊x⌋ then ⌊x⌋ + 1
  else if ⌊x⌋ % 2 = 0 then ⌊x⌋ else ⌊x⌋ + 1

/-- The Number value for the exact value `q`: `q` rounded to the nearest
double, ties to the even significand, and to an infinity from `2 ^ 1024` on. -/
def roundDouble (q : ℚ) : JSNumber :=
  let r : ℚ := roundHalfEven (q / 2 ^ ulpExponent q) * 2 ^ ulpExponent q
  if 2 ^ 1024 ≤ r then .infinity
  else if r ≤ -2 ^ 1024 then .negInfinity
  else .finite r

/-- The sum `x + k` of a Number and a finite constant `k` (`x - 1` is
`x.add (-1)`): the exact sum rounded to a double; the infinities absorb `k`. -/
def JSNumber.add : JSNumber → ℚ → JSNumber
  | .negInfinity, _ => .negInfinity
  | .finite q, k => roundDouble (q + k)
  | .infinity, _ => .infinity

/-- The comparison `x < y` of two Numbers. -/
def JSNumber.lt : JSNumber → JSNumber → Bool
  | .negInfinity, .negInfinity => false
  | .negInfinity, _ => true
  | .finite _, .negInfinity => false
  | .finite a, .finite b => decide (a < b)
  | .finite _, .infinity => true
  | .infinity, _ => false

/-- `Math.min(...xs)`: starting from `Infinity`, each smaller number replaces
the lowest so far. -/
def mathMin (xs : List JSNumber) : JSNumber :=
  xs.foldl (fun lowest number => if number.lt lowest then number else lowest) .infinity

/-- `Math.max(...xs)`: starting from `-Infinity`, each greater number replaces
the highest so far. -/
def mathMax (xs : List JSNumber) : JSNumber :=
  xs.foldl (fun highest number => if highest.lt number then number else highest) .negInfinity

/-- The object under `data.radar`; a field that is missing is `none`. -/
structure RadarSample where
  angle : Option Int
  distance : Option Int
  deriving DecidableEq, Repr

/-- The object under `data.dht`; a field that is missing is `none`. -/
structure DHTReading where
  temperature : Option JSNumber
  humidity : Option JSNumber
  deriving DecidableEq, Repr

/-- The decoded response body `data`; a sub-key that is missing is `none`. -/
structure Data where
  radar : Option RadarSample
  ir : Option JSNumber
  dht : Option DHTReading
  deriving DecidableEq, Repr

/-! ## Effects -/

/-- The calls the update functions make to the charting library. -/
inductive PlotlyCall where
  /-- The call `Plotly.restyle('radar-plot', { r: [distances], theta: [angles] }, 0)`. -/
  | restylePoints (r : List (Option Int)) (theta : List Int)
  /-- The call `Plotly.restyle('radar-plot', { theta: [[a, b]] }, 1)` with `theta = [a, b]`. -/
  | restyleSweep (theta : List Int)
  /-- The call `Plotly.update('ir-plot', { x: [xdata], y: [ir_ydata] }, {}, [0])`. -/
  | updateIR (x : List Nat) (y : List JSNumber)
  /-- The call `Plotly.update('dht-plot', { x: [x0, x1], y: [y0, y1] }, {}, [0, 1])`. -/
  | updateDHT (x0 x1 : List Nat) (y0 y1 : List JSNumber)
  /-- The call `Plotly.relayout('ir-plot', { 'yaxis.range': [lo, hi] })`. -/
  | relayoutIR (lo hi : JSNumber)
  /-- The call `Plotly.relayout('dht-plot', { 'yaxis.range': [lo, hi], 'yaxis2.range': [lo2, hi2] })`. -/
  | relayoutDHT (lo hi lo2 hi2 : JSNumber)
  deriving DecidableEq, Repr

/-- The chart (first argument) a call is addressed to. -/
def PlotlyCall.div : PlotlyCall → String
  | .restylePoints _ _ => "radar-plot"
  | .restyleSweep _ => "radar-plot"
  | .updateIR _ _ => "ir-plot"
  | .updateDHT _ _ _ _ => "dht-plot"
  | .relayoutIR _ _ => "ir-plot"
  | .relayoutDHT _ _ _ _ => "dht-plot"

/-- Whether a call is a `Plotly.relayout` (an axis-range command). -/
def PlotlyCall.isRelayout : PlotlyCall → Bool
  | .relayoutIR _ _ => true
  | .relayoutDHT _ _ _ _ => true
  | _ => false

/-- Console entries: `console.log(msg)` and `console.error(label, message)`. -/
inductive LogEntry where
  | log (msg : String)
  | error (label message : String)
  deriving DecidableEq, Repr

/-- What `await fetch(url)` followed by `await response.json()` can produce:
the fetch promise rejects, or it resolves to a response with a status whose
body either fails to decode (`Except.error`) or decodes to an object `data`.
A body that decodes to something other than an object is not modelled. -/
inductive FetchOutcome where
  | rejected (message : String)
  | response (status : Nat) (json : Except String Data)

/-- The getter `response.ok`: the status is in the range 200 to 299. -/
def responseOk (status : Nat) : Bool := decide (200 ≤ status) && decide (status ≤ 299)

/-! ## State -/

/-- The script's global variables and the traces of its effects. -/
structure State where
  ARDUINO_IP : String
  /-- The object `radar_data`: its properties in insertion order; the key is
  the integer whose decimal form is the property name. -/
  radar_data : List (Int × Int)
  ir_ydata : List JSNumber
  dht_temp_data : List JSNumber
  dht_hum_data : List JSNumber
  plotly : List PlotlyCall
  console : List LogEntry
  fetches : List String
  deriving DecidableEq, Repr

/-- The state after the script has loaded: no IP, no readings. -/
def State.init : State :=
  ⟨"", [], [], [], [], [], [], []⟩

/-- The calls to the charting library made between state `s` and a later
state `t`. -/
def issued (s t : State) : List PlotlyCall := t.plotly.drop s.plotly.length

/-! ## `setIP` -/

/-- White space and line terminators, the characters `String.prototype.trim`
removes. -/
def isWhiteSpace (c : Char) : Bool :=
  c.val.toNat ∈ [0x09, 0x0A, 0x0B, 0x0C, 0x0D, 0x20, 0xA0, 0x1680, 0x2000, 0x2001, 0x2002,
    0x2003, 0x2004, 0x2005, 0x2006, 0x2007, 0x2008, 0x2009, 0x200A, 0x2028, 0x2029, 0x202F,
    0x205F, 0x3000, 0xFEFF]

/-- The method `String.prototype.trim`. -/
def trim (s : String) : String :=
  String.mk ((s.data.dropWhile isWhiteSpace).reverse.dropWhile isWhiteSpace).reverse

/-- The function `setIP`; `value` is `document.getElementById('arduino-ip').value`. -/
def setIP (s : State) (value : String) : State :=
  let s1 := { s with ARDUINO_IP := trim value }
  if s1.ARDUINO_IP ≠ "" then
    { s1 with console := s1.console ++ [.log ("Arduino IP set to: " ++ s1.ARDUINO_IP)] }
  else s1

/-! ## `updateRadar` -/

/-- The assignment `o[k] = v`: an existing property keeps its place, a new one
is added last. -/
def setProperty : List (Int × Int) → Int → Int → List (Int × Int)
  | [], k, v => [(k, v)]
  | (k', v') :: rest, k, v =>
    if k' = k then (k, v) :: rest else (k', v') :: setProperty rest k v

/-- The read `o[k]`: `none` (`undefined`) when `o` has no such property. -/
def getProperty : List (Int × Int) → Int → Option Int
  | [], _ => none
  | (k', v') :: rest, k => if k' = k then some v' else getProperty rest k

/-- Property names that are array indices: the integers from 0 to 2^32 - 2. -/
def isArrayIndex (k : Int) : Bool := decide (0 ≤ k) && decide (k < 4294967295)

/-- The expression `Object.keys(o).map(Number)`: array-index keys in ascending
order first, then the other keys in insertion order. -/
def objectKeys (o : List (Int × Int)) : List Int :=
  ((o.map Prod.fst).filter isArrayIndex).insertionSort (· ≤ ·)
    ++ (o.map Prod.fst).filter (fun k => !isArrayIndex k)

/-- The function `updateRadar`. -/
def updateRadar (s : State) (radar : Option RadarSample) : State :=
  match radar with
  | none => s
  | some r =>
    match r.angle, r.distance with
    | some angle, some distance =>
      let radar_data := setProperty s.radar_data angle distance
      let sorted_angles := (objectKeys radar_data).insertionSort (· ≤ ·)
      let angles := sorted_angles
      let distances := sorted_angles.map (fun a => getProperty radar_data a)
      { s with
        radar_data := radar_data
        plotly := s.plotly ++
          [.restylePoints distances angles, .restyleSweep [angle, angle]] }
    | _, _ => s

/-! ## `updateIR` -/

/-- The function `updateIR`. -/
def updateIR (s : State) (ir_value : Option JSNumber) : State :=
  match ir_value with
  | none => s
  | some v =>
    let pushed := s.ir_ydata ++ [v]
    let ir_ydata := if pushed.length > 20 then pushed.tail else pushed
    let xdata := List.range ir_ydata.length
    let drawn := s.plotly ++ [.updateIR xdata ir_ydata]
    { s with
      ir_ydata := ir_ydata
      plotly :=
        if ir_ydata.length > 1 then
          drawn ++ [.relayoutIR ((mathMin ir_ydata).add (-1)) ((mathMax ir_ydata).add 1)]
        else drawn }

/-! ## `updateDHT` -/

/-- The function `updateDHT`. -/
def updateDHT (s : State) (dht : Option DHTReading) : State :=
  match dht with
  | none => s
  | some d =>
    match d.temperature, d.humidity with
    | some temperature, some humidity =>
      let tempPushed := s.dht_temp_data ++ [temperature]
      let humPushed := s.dht_hum_data ++ [humidity]
      let dht_temp_data := if tempPushed.length > 20 then tempPushed.tail else tempPushed
      let dht_hum_data := if tempPushed.length > 20 then humPushed.tail else humPushed
      let xdata := List.range dht_temp_data.length
      let drawn := s.plotly ++ [.updateDHT xdata xdata dht_temp_data dht_hum_data]
      { s with
        dht_temp_data := dht_temp_data
        dht_hum_data := dht_hum_data
        plotly :=
          if dht_temp_data.length > 1 then
            drawn ++ [.relayoutDHT
              ((mathMin dht_temp_data).add (-1)) ((mathMax dht_temp_data).add 1)
              ((mathMin dht_hum_data).add (-5)) ((mathMax dht_hum_data).add 5)]
          else drawn }
    | _, _ => s

/-! ## `updateData` -/

/-- The three update calls of `updateData`, in source order. -/
def dispatch (s : State) (data : Data) : State :=
  updateDHT (updateIR (updateRadar s data.radar) data.ir) data.dht

/-- The `try` block of `updateData`: the state when the block is left, and the
message of the error thrown, if one was. -/
def updateDataTry (s : State) (net : String → FetchOutcome) : State × Option String :=
  let url := "http://" ++ s.ARDUINO_IP ++ "/"
  let s1 := { s with fetches := s.fetches ++ [url] }
  match net url with
  | .rejected message => (s1, some message)
  | .response status json =>
    if !responseOk status then (s1, some ("HTTP error! Status: " ++ toString status))
    else
      match json with
      | .error message => (s1, some message)
      | .ok data => (dispatch s1 data, none)

/-- The function `updateData`; `net` gives the outcome of fetching a URL. -/
def updateData (s : State) (net : String → FetchOutcome) : State :=
  if s.ARDUINO_IP = "" then s
  else
    match updateDataTry s net with
    | (s1, none) => s1
    | (s1, some message) =>
      { s1 with console := s1.console ++ [.error "Error fetching data:" message] }

/-! ## Runs -/

/-- A sequence of `updateRadar` calls, one per argument, from state `s`. -/
def runRadar (s : State) (calls : List (Option RadarSample)) : State :=
  calls.foldl updateRadar s

/-- A sequence of `updateIR` calls, one per argument, from state `s`. -/
def runIR (s : State) (calls : List (Option JSNumber)) : State :=
  calls.foldl updateIR s

/-- A sequence of `updateDHT` calls, one per argument, from state `s`. -/
def runDHT (s : State) (calls : List (Option DHTReading)) : State :=
  calls.foldl updateDHT s

/-- A radar sample with both fields present. -/
def RadarSample.valid (p : Int × Int) : Option RadarSample := some ⟨some p.1, some p.2⟩

/-- The readings of a sequence of `updateDHT` arguments that pass the guard
of `updateDHT`, as (temperature, humidity) pairs in arrival order. -/
def validReadings (calls : List (Option DHTReading)) : List (JSNumber × JSNumber) :=
  calls.filterMap fun c =>
    match c with
    | some ⟨some t, some h⟩ => some (t, h)
    | _ => none

/-- The guard of `updateRadar`:
`!radar || radar.angle === undefined || radar.distance === undefined`. -/
def radarGuard : Option RadarSample → Bool
  | none => true
  | some r => r.angle.isNone || r.distance.isNone

/-- The guard of `updateDHT`:
`!dht || dht.temperature === undefined || dht.humidity === undefined`. -/
def dhtGuard : Option DHTReading → Bool
  | none => true
  | some d => d.temperature.isNone || d.humidity.isNone


/-! ## Sliding windows -/

section Window

variable {α : Type}

theorem window_step (vs : List α) (v : α) :
    (if (vs.drop (vs.length - 20) ++ [v]).length > 20
      then (vs.drop (vs.length - 20) ++ [v]).tail
      else vs.drop (vs.length - 20) ++ [v])
      = (vs ++ [v]).drop ((vs ++ [v]).length - 20) := by
  by_cases h : vs.length < 20
  · have h0 : vs.length - 20 = 0 := by omega
    have h1 : (vs ++ [v]).length - 20 = 0 := by simp; omega
    rw [h0, h1]
    simp
    omega
  · have hlen : (vs.drop (vs.length - 20) ++ [v]).length > 20 := by
      simp; omega
    rw [if_pos hlen]
    have h1 : (vs ++ [v]).length - 20 = (vs.length - 20) + 1 := by simp; omega
    rw [h1, ← List.drop_one]
    have h2 : 1 ≤ (vs.drop (vs.length - 20)).length := by simp; omega
    rw [List.drop_append_of_le_length h2, List.drop_append_of_le_length (by omega)]
    rw [List.drop_drop, Nat.add_comm]

theorem window_length (vs : List α) : (vs.drop (vs.length - 20)).length = min vs.length 20 := by
  simp
  omega

end Window

/-! ## `updateIR`: the buffer -/

theorem updateIR_ydata (s : State) (v : JSNumber) :
    (updateIR s (some v)).ir_ydata =
      if (s.ir_ydata ++ [v]).length > 20 then (s.ir_ydata ++ [v]).tail else s.ir_ydata ++ [v] :=
  rfl

theorem runIR_append (s : State) (cs : List (Option JSNumber)) (c : Option JSNumber) :
    runIR s (cs ++ [c]) = updateIR (runIR s cs) c := by
  simp [runIR, List.foldl_append]

theorem runIR_ydata (cs : List (Option JSNumber)) :
    (runIR State.init cs).ir_ydata
      = cs.reduceOption.drop (cs.reduceOption.length - 20) := by
  induction cs using List.reverseRecOn with
  | nil => rfl
  | append_singleton cs c ih =>
    rw [runIR_append]
    cases c with
    | none => simpa [updateIR, List.reduceOption_append] using ih
    | some v =>
      rw [updateIR_ydata, ih, List.reduceOption_append]
      exact window_step cs.reduceOption v

/-! ## `updateDHT`: the buffers -/

theorem updateDHT_temp (s : State) (t h : JSNumber) :
    (updateDHT s (some ⟨some t, some h⟩)).dht_temp_data =
      if (s.dht_temp_data ++ [t]).length > 20 then (s.dht_temp_data ++ [t]).tail
      else s.dht_temp_data ++ [t] :=
  rfl

theorem updateDHT_hum (s : State) (t h : JSNumber) :
    (updateDHT s (some ⟨some t, some h⟩)).dht_hum_data =
      if (s.dht_temp_data ++ [t]).length > 20 then (s.dht_hum_data ++ [h]).tail
      else s.dht_hum_data ++ [h] :=
  rfl

theorem updateDHT_invalid (s : State) (c : Option DHTReading)
    (hc : ∀ t h, c ≠ some ⟨some t, some h⟩) : updateDHT s c = s := by
  cases c with
  | none => rfl
  | some d =>
    obtain ⟨t, h⟩ := d
    cases t with
    | none => rfl
    | some t =>
      cases h with
      | none => rfl
      | some h => exact absurd rfl (hc t h)

theorem runDHT_append (s : State) (cs : List (Option DHTReading)) (c : Option DHTReading) :
    runDHT s (cs ++ [c]) = updateDHT (runDHT s cs) c := by
  simp [runDHT, List.foldl_append]

theorem validReadings_append_valid (cs : List (Option DHTReading)) (t h : JSNumber) :
    validReadings (cs ++ [some ⟨some t, some h⟩]) = validReadings cs ++ [(t, h)] := by
  simp [validReadings, List.filterMap_append]

theorem validReadings_append_invalid (cs : List (Option DHTReading)) (c : Option DHTReading)
    (hc : ∀ t h, c ≠ some ⟨some t, some h⟩) :
    validReadings (cs ++ [c]) = validReadings cs := by
  cases c with
  | none => simp [validReadings, List.filterMap_append]
  | some d =>
    obtain ⟨t, h⟩ := d
    cases t with
    | none => simp [validReadings, List.filterMap_append]
    | some t =>
      cases h with
      | none => simp [validReadings, List.filterMap_append]
      | some h => exact absurd rfl (hc t h)

theorem runDHT_buffers (cs : List (Option DHTReading)) :
    (runDHT State.init cs).dht_temp_data
        = ((validReadings cs).drop ((validReadings cs).length - 20)).map Prod.fst
      ∧ (runDHT State.init cs).dht_hum_data
        = ((validReadings cs).drop ((validReadings cs).length - 20)).map Prod.snd := by
  induction cs using List.reverseRecOn with
  | nil => exact ⟨rfl, rfl⟩
  | append_singleton cs c ih =>
    rw [runDHT_append]
    by_cases hc : ∀ t h, c ≠ some ⟨some t, some h⟩
    · rw [updateDHT_invalid _ _ hc, validReadings_append_invalid _ _ hc]
      exact ih
    · push_neg at hc
      obtain ⟨t, h, rfl⟩ := hc
      obtain ⟨iht, ihh⟩ := ih
      have hw := window_step (validReadings cs) (t, h)
      have hlen : ((runDHT State.init cs).dht_temp_data ++ [t]).length
          = ((validReadings cs).drop ((validReadings cs).length - 20) ++ [(t, h)]).length := by
        rw [iht]; simp
      rw [updateDHT_temp, updateDHT_hum, validReadings_append_valid, ← hw, hlen]
      split
      · rw [iht, ihh]
        constructor <;> simp [List.map_tail]
      · rw [iht, ihh]
        constructor <;> simp

/-! ## What one call issues -/

theorem issued_append (s t : State) (cs : List PlotlyCall) (h : t.plotly = s.plotly ++ cs) :
    issued s t = cs := by
  simp [issued, h]

theorem updateIR_issued (s : State) (v : JSNumber) :
    issued s (updateIR s (some v)) =
      if (updateIR s (some v)).ir_ydata.length > 1 then
        [.updateIR (List.range (updateIR s (some v)).ir_ydata.length) (updateIR s (some v)).ir_ydata,
          .relayoutIR ((mathMin (updateIR s (some v)).ir_ydata).add (-1))
            ((mathMax (updateIR s (some v)).ir_ydata).add 1)]
      else
        [.updateIR (List.range (updateIR s (some v)).ir_ydata.length)
          (updateIR s (some v)).ir_ydata] := by
  apply issued_append
  simp only [updateIR]
  split <;> simp <;> split <;> simp_all

theorem updateDHT_issued (s : State) (t h : JSNumber) :
    issued s (updateDHT s (some ⟨some t, some h⟩)) =
      if (updateDHT s (some ⟨some t, some h⟩)).dht_temp_data.length > 1 then
        [.updateDHT (List.range (updateDHT s (some ⟨some t, some h⟩)).dht_temp_data.length)
            (List.range (updateDHT s (some ⟨some t, some h⟩)).dht_temp_data.length)
            (updateDHT s (some ⟨some t, some h⟩)).dht_temp_data
            (updateDHT s (some ⟨some t, some h⟩)).dht_hum_data,
          .relayoutDHT
            ((mathMin (updateDHT s (some ⟨some t, some h⟩)).dht_temp_data).add (-1))
            ((mathMax (updateDHT s (some ⟨some t, some h⟩)).dht_temp_data).add 1)
            ((mathMin (updateDHT s (some ⟨some t, some h⟩)).dht_hum_data).add (-5))
            ((mathMax (updateDHT s (some ⟨some t, some h⟩)).dht_hum_data).add 5)]
      else
        [.updateDHT (List.range (updateDHT s (some ⟨some t, some h⟩)).dht_temp_data.length)
            (List.range (updateDHT s (some ⟨some t, some h⟩)).dht_temp_data.length)
            (updateDHT s (some ⟨some t, some h⟩)).dht_temp_data
            (updateDHT s (some ⟨some t, some h⟩)).dht_hum_data] := by
  apply issued_append
  simp only [updateDHT]
  split <;> simp <;> split <;> simp_all

/-! ## Double arithmetic -/

theorem roundHalfEven_intCast (z : ℤ) : roundHalfEven (z : ℚ) = z := by
  simp [roundHalfEven]

theorem roundDouble_of_div_int (q : ℚ) (z : ℤ) (hz : q / 2 ^ ulpExponent q = z)
    (hlt : |q| < 2 ^ 1024) : roundDouble q = .finite q := by
  have hpos : (0 : ℚ) < 2 ^ ulpExponent q := zpow_pos (by norm_num) _
  have hr : (roundHalfEven (q / 2 ^ ulpExponent q) : ℚ) * 2 ^ ulpExponent q = q := by
    rw [hz, roundHalfEven_intCast, ← hz]
    field_simp
  have h1 := (abs_lt.1 hlt).1
  have h2 := (abs_lt.1 hlt).2
  unfold roundDouble
  simp only [hr]
  rw [if_neg (not_le.2 h2), if_neg (not_le.2 h1)]

theorem ulpExponent_le (m e : ℤ) (hm : |m| < 2 ^ 53) (hm0 : m ≠ 0) (he : -1074 ≤ e) :
    ulpExponent ((m : ℚ) * 2 ^ e) ≤ e := by
  have h2e : (0 : ℚ) < 2 ^ e := zpow_pos (by norm_num) _
  have habs : |(m : ℚ) * 2 ^ e| = |(m : ℚ)| * 2 ^ e := by
    rw [abs_mul, abs_of_pos h2e]
  have hmq : |(m : ℚ)| < 2 ^ 53 := by
    have : ((|m| : ℤ) : ℚ) < ((2 ^ 53 : ℤ) : ℚ) := Int.cast_lt.2 hm
    simpa using this
  have hmpos : (0 : ℚ) < |(m : ℚ)| := abs_pos.2 (Int.cast_ne_zero.2 hm0)
  have hpos : (0 : ℚ) < |(m : ℚ) * 2 ^ e| := by rw [habs]; exact mul_pos hmpos h2e
  have hlt : |(m : ℚ) * 2 ^ e| < ((2 : ℕ) : ℚ) ^ (53 + e) := by
    have h53 : ((2 : ℕ) : ℚ) ^ (53 : ℤ) = 2 ^ 53 := by norm_cast
    rw [habs, zpow_add₀ (by norm_num), h53]
    have : |(m : ℚ)| * 2 ^ e < 2 ^ 53 * 2 ^ e := mul_lt_mul_of_pos_right hmq h2e
    simpa using this
  have hlog := (Int.lt_zpow_iff_log_lt (by norm_num) hpos).1 hlt
  unfold ulpExponent
  omega

/-- Rounding leaves a double as it is. -/
theorem roundDouble_of_isDouble (q : ℚ) (h : isDouble q) : roundDouble q = .finite q := by
  obtain ⟨m, e, hm, he1, he2, rfl⟩ := h
  by_cases hm0 : m = 0
  · subst hm0
    apply roundDouble_of_div_int _ 0
    · simp
    · simp
  · have hu := ulpExponent_le m e hm hm0 he1
    have h2e : (0 : ℚ) < 2 ^ e := zpow_pos (by norm_num) _
    have hmq : |(m : ℚ)| < 2 ^ 53 := by
      have : ((|m| : ℤ) : ℚ) < ((2 ^ 53 : ℤ) : ℚ) := Int.cast_lt.2 hm
      simpa using this
    apply roundDouble_of_div_int _ (m * 2 ^ (e - ulpExponent ((m : ℚ) * 2 ^ e)).toNat)
    · have hsplit :
          e = (e - ulpExponent ((m : ℚ) * 2 ^ e)).toNat + ulpExponent ((m : ℚ) * 2 ^ e) := by
        omega
      have hne : (2 : ℚ) ^ ulpExponent ((m : ℚ) * 2 ^ e) ≠ 0 := (zpow_pos (by norm_num) _).ne'
      rw [div_eq_iff hne]
      push_cast
      rw [mul_assoc, ← zpow_natCast, ← zpow_add₀ (by norm_num), ← hsplit]
    · rw [abs_mul, abs_of_pos h2e]
      have h971 : (2 : ℚ) ^ e ≤ 2 ^ (971 : ℤ) := zpow_le_zpow_right₀ (by norm_num) he2
      calc |(m : ℚ)| * 2 ^ e < 2 ^ 53 * 2 ^ e := mul_lt_mul_of_pos_right hmq h2e
        _ ≤ 2 ^ 53 * 2 ^ (971 : ℤ) := mul_le_mul_of_nonneg_left h971 (by norm_num)
        _ = 2 ^ 1024 := by norm_num

theorem isDouble_intCast (z : ℤ) (hz : |z| < 2 ^ 53) : isDouble (z : ℚ) :=
  ⟨z, 0, hz, by norm_num, by norm_num, by simp⟩

theorem add_exact (q k : ℚ) (h : isDouble (q + k)) :
    (JSNumber.finite q).add k = .finite (q + k) :=
  roundDouble_of_isDouble _ h

theorem add_int_exact (n k : ℤ) (h : |n + k| < 2 ^ 53) :
    (JSNumber.finite n).add k = .finite ((n + k : ℤ) : ℚ) := by
  have := add_exact (n : ℚ) (k : ℚ) (by
    have hd := isDouble_intCast (n + k) h
    simpa using hd)
  simpa using this

theorem log_two_eq (r : ℚ) (e : ℤ) (hlo : 2 ^ e ≤ r) (hhi : r < 2 ^ (e + 1)) :
    Int.log 2 r = e := by
  have hr : 0 < r := lt_of_lt_of_le (zpow_pos (by norm_num) _) hlo
  have h1 : e ≤ Int.log 2 r := (Int.zpow_le_iff_le_log (by norm_num) hr).1 (by simpa using hlo)
  have h2 : Int.log 2 r < e + 1 := (Int.lt_zpow_iff_log_lt (by norm_num) hr).1 (by simpa using hhi)
  omega

theorem roundHalfEven_tie_even (f : ℤ) (hf : f % 2 = 0) :
    roundHalfEven ((f : ℚ) + 1 / 2) = f := by
  have hfl : ⌊(f : ℚ) + 1 / 2⌋ = f := by
    rw [Int.floor_eq_iff]
    constructor <;> norm_num
  unfold roundHalfEven
  rw [hfl]
  norm_num [hf]

/-- The sum `2 ^ 53 + 1` is halfway between two doubles and rounds to `2 ^ 53`. -/
theorem roundDouble_two_pow_53_succ :
    roundDouble (9007199254740992 + 1) = .finite 9007199254740992 := by
  have hu : ulpExponent (9007199254740992 + 1) = 1 := by
    unfold ulpExponent
    rw [log_two_eq _ 53 (by norm_num [abs_of_pos]) (by norm_num [abs_of_pos])]
    rfl
  have hdiv : ((9007199254740992 : ℚ) + 1) / 2 ^ (1 : ℤ)
      = ((4503599627370496 : ℤ) : ℚ) + 1 / 2 := by
    norm_num
  unfold roundDouble
  simp only [hu, hdiv]
  rw [roundHalfEven_tie_even _ (by decide)]
  norm_num

/-! ## `Math.min` and `Math.max` -/

theorem jsLt_trans (a b c : JSNumber) (h1 : a.lt b = true) (h2 : b.lt c = true) :
    a.lt c = true := by
  cases a <;> cases b <;> cases c <;> simp_all [JSNumber.lt]
  exact lt_trans h1 h2

theorem jsLt_of_lt_of_not_lt (a b c : JSNumber) (h1 : a.lt b = true)
    (h2 : c.lt b = false) : a.lt c = true := by
  cases a <;> cases b <;> cases c <;> simp_all [JSNumber.lt]
  exact lt_of_lt_of_le h1 h2

theorem jsLt_of_not_lt_of_lt (a b c : JSNumber) (h1 : b.lt a = false)
    (h2 : b.lt c = true) : a.lt c = true := by
  cases a <;> cases b <;> cases c <;> simp_all [JSNumber.lt]
  exact lt_of_le_of_lt h1 h2

theorem eq_infinity_of_not_lt (x : JSNumber) (h : x.lt .infinity = false) : x = .infinity := by
  cases x <;> simp_all [JSNumber.lt]

theorem eq_negInfinity_of_not_lt (x : JSNumber) (h : JSNumber.negInfinity.lt x = false) :
    x = .negInfinity := by
  cases x <;> simp_all [JSNumber.lt]

theorem foldl_min_spec (xs : List JSNumber) (acc : JSNumber) :
    (xs.foldl (fun lowest number => if number.lt lowest then number else lowest) acc = acc
        ∨ xs.foldl (fun lowest number => if number.lt lowest then number else lowest) acc ∈ xs)
      ∧ acc.lt (xs.foldl (fun lowest number => if number.lt lowest then number else lowest) acc)
          = false
      ∧ ∀ x ∈ xs,
          x.lt (xs.foldl (fun lowest number => if number.lt lowest then number else lowest) acc)
            = false := by
  induction xs generalizing acc with
  | nil => cases acc <;> simp [JSNumber.lt]
  | cons z zs ih =>
    simp only [List.foldl_cons]
    obtain ⟨hm, hacc, hall⟩ := ih (if z.lt acc then z else acc)
    generalize zs.foldl (fun lowest number => if number.lt lowest then number else lowest)
      (if z.lt acc then z else acc) = r at hm hacc hall
    by_cases hz : z.lt acc = true
    · rw [if_pos hz] at hm hacc
      refine ⟨?_, ?_, ?_⟩
      · rcases hm with h | h
        · exact Or.inr (by rw [h]; exact List.mem_cons_self _ _)
        · exact Or.inr (List.mem_cons_of_mem _ h)
      · cases hr : acc.lt r with
        | false => rfl
        | true => rw [jsLt_trans z acc r hz hr] at hacc; exact absurd hacc (by decide)
      · intro x hx
        rcases List.mem_cons.1 hx with h | h
        · rw [h]; exact hacc
        · exact hall x h
    · rw [if_neg hz] at hm hacc
      have hz' : z.lt acc = false := by simpa using hz
      refine ⟨?_, hacc, ?_⟩
      · rcases hm with h | h
        · exact Or.inl h
        · exact Or.inr (List.mem_cons_of_mem _ h)
      · intro x hx
        rcases List.mem_cons.1 hx with h | h
        · rw [h]
          cases hr : z.lt r with
          | false => rfl
          | true =>
            rw [jsLt_of_lt_of_not_lt z r acc hr hacc] at hz'
            exact absurd hz' (by decide)
        · exact hall x h

theorem foldl_max_spec (xs : List JSNumber) (acc : JSNumber) :
    (xs.foldl (fun highest number => if highest.lt number then number else highest) acc = acc
        ∨ xs.foldl (fun highest number => if highest.lt number then number else highest) acc ∈ xs)
      ∧ (xs.foldl (fun highest number => if highest.lt number then number else highest) acc).lt
          acc = false
      ∧ ∀ x ∈ xs,
          (xs.foldl (fun highest number => if highest.lt number then number else highest) acc).lt
            x = false := by
  induction xs generalizing acc with
  | nil => cases acc <;> simp [JSNumber.lt]
  | cons z zs ih =>
    simp only [List.foldl_cons]
    obtain ⟨hm, hacc, hall⟩ := ih (if acc.lt z then z else acc)
    generalize zs.foldl (fun highest number => if highest.lt number then number else highest)
      (if acc.lt z then z else acc) = r at hm hacc hall
    by_cases hz : acc.lt z = true
    · rw [if_pos hz] at hm hacc
      refine ⟨?_, ?_, ?_⟩
      · rcases hm with h | h
        · exact Or.inr (by rw [h]; exact List.mem_cons_self _ _)
        · exact Or.inr (List.mem_cons_of_mem _ h)
      · cases hr : r.lt acc with
        | false => rfl
        | true => rw [jsLt_trans r acc z hr hz] at hacc; exact absurd hacc (by decide)
      · intro x hx
        rcases List.mem_cons.1 hx with h | h
        · rw [h]; exact hacc
        · exact hall x h
    · rw [if_neg hz] at hm hacc
      have hz' : acc.lt z = false := by simpa using hz
      refine ⟨?_, hacc, ?_⟩
      · rcases hm with h | h
        · exact Or.inl h
        · exact Or.inr (List.mem_cons_of_mem _ h)
      · intro x hx
        rcases List.mem_cons.1 hx with h | h
        · rw [h]
          cases hr : r.lt z with
          | false => rfl
          | true =>
            rw [jsLt_of_not_lt_of_lt acc r z hacc hr] at hz'
            exact absurd hz' (by decide)
        · exact hall x h

theorem mathMin_spec (b : List JSNumber) (hb : b ≠ []) :
    mathMin b ∈ b ∧ ∀ x ∈ b, x.lt (mathMin b) = false := by
  obtain ⟨hm, _, hall⟩ := foldl_min_spec b .infinity
  refine ⟨?_, hall⟩
  rcases hm with h | h
  · cases b with
    | nil => exact absurd rfl hb
    | cons x xs =>
      have hx := hall x (List.mem_cons_self _ _)
      unfold mathMin
      rw [h] at hx ⊢
      rw [← eq_infinity_of_not_lt x hx]
      exact List.mem_cons_self _ _
  · exact h

theorem mathMax_spec (b : List JSNumber) (hb : b ≠ []) :
    mathMax b ∈ b ∧ ∀ x ∈ b, (mathMax b).lt x = false := by
  obtain ⟨hm, _, hall⟩ := foldl_max_spec b .negInfinity
  refine ⟨?_, hall⟩
  rcases hm with h | h
  · cases b with
    | nil => exact absurd rfl hb
    | cons x xs =>
      have hx := hall x (List.mem_cons_self _ _)
      unfold mathMax
      rw [h] at hx ⊢
      rw [← eq_negInfinity_of_not_lt x hx]
      exact List.mem_cons_self _ _
  · exact h

theorem reduceOption_map_some (vs : List JSNumber) : (vs.map some).reduceOption = vs := by
  induction vs with
  | nil => rfl
  | cons v vs ih => simp [List.reduceOption_cons_of_some, ih]

/-! ## `updateRadar`: the aggregate -/

theorem setProperty_keys (o : List (Int × Int)) (k v : Int) :
    (setProperty o k v).map Prod.fst
      = if k ∈ o.map Prod.fst then o.map Prod.fst else o.map Prod.fst ++ [k] := by
  induction o with
  | nil => simp [setProperty]
  | cons p o ih =>
    obtain ⟨k', v'⟩ := p
    by_cases h : k' = k
    · subst h
      simp [setProperty]
    · have h' : ¬ k = k' := fun e => h e.symm
      simp only [setProperty, if_neg h, List.map_cons, ih, List.mem_cons, h', false_or]
      split <;> simp

theorem getProperty_setProperty (o : List (Int × Int)) (k v a : Int) :
    getProperty (setProperty o k v) a = if a = k then some v else getProperty o a := by
  induction o with
  | nil =>
    by_cases h : a = k
    · simp [setProperty, getProperty, h]
    · have h' : ¬ k = a := fun e => h e.symm
      simp [setProperty, getProperty, h, h']
  | cons p o ih =>
    obtain ⟨k', v'⟩ := p
    by_cases h : k' = k
    · subst h
      by_cases ha : a = k'
      · simp [setProperty, getProperty, ha]
      · have ha' : ¬ k' = a := fun e => ha e.symm
        simp [setProperty, getProperty, ha, ha']
    · simp only [setProperty, if_neg h, getProperty, ih]
      by_cases ha : k' = a
      · have : ¬ a = k := fun e => h (ha.trans e)
        simp [ha, this]
      · simp [ha]

theorem getProperty_of_mem (o : List (Int × Int)) (a : Int) (h : a ∈ o.map Prod.fst) :
    ∃ d, getProperty o a = some d := by
  induction o with
  | nil => simp at h
  | cons p o ih =>
    obtain ⟨k', v'⟩ := p
    by_cases hk : k' = a
    · exact ⟨v', by simp [getProperty, hk]⟩
    · have : a ∈ o.map Prod.fst := by
        rcases List.mem_cons.1 h with h1 | h1
        · exact absurd h1.symm hk
        · exact h1
      obtain ⟨d, hd⟩ := ih this
      exact ⟨d, by simp [getProperty, hk, hd]⟩

theorem objectKeys_perm (o : List (Int × Int)) : (objectKeys o).Perm (o.map Prod.fst) := by
  unfold objectKeys
  exact ((List.perm_insertionSort _ _).append_right _).trans
    (List.filter_append_perm isArrayIndex (o.map Prod.fst))

theorem sorted_angles_spec (o : List (Int × Int)) (hnd : (o.map Prod.fst).Nodup) :
    ((objectKeys o).insertionSort (· ≤ ·)).Sorted (· < ·)
      ∧ ∀ a, a ∈ (objectKeys o).insertionSort (· ≤ ·) ↔ a ∈ o.map Prod.fst := by
  have hp : ((objectKeys o).insertionSort (· ≤ ·)).Perm (o.map Prod.fst) :=
    (List.perm_insertionSort _ _).trans (objectKeys_perm o)
  constructor
  · exact (List.sorted_insertionSort (· ≤ ·) _).lt_of_le (hp.nodup_iff.2 hnd)
  · intro a
    exact hp.mem_iff

theorem mem_zip_map_self (l : List Int) (f : Int → Option Int) (a : Int) (r : Option Int)
    (h : (a, r) ∈ l.zip (l.map f)) : a ∈ l ∧ r = f a := by
  induction l with
  | nil => simp at h
  | cons x xs ih =>
    simp only [List.map_cons, List.zip_cons_cons, List.mem_cons, Prod.mk.injEq] at h
    rcases h with ⟨h1, h2⟩ | h
    · exact ⟨by simp [h1], by rw [h2, h1]⟩
    · exact ⟨List.mem_cons_of_mem _ (ih h).1, (ih h).2⟩

theorem updateRadar_valid (s : State) (p : Int × Int) :
    (updateRadar s (RadarSample.valid p)).radar_data = setProperty s.radar_data p.1 p.2
      ∧ issued s (updateRadar s (RadarSample.valid p)) =
        [.restylePoints
            (((objectKeys (setProperty s.radar_data p.1 p.2)).insertionSort (· ≤ ·)).map
              (fun a => getProperty (setProperty s.radar_data p.1 p.2) a))
            ((objectKeys (setProperty s.radar_data p.1 p.2)).insertionSort (· ≤ ·)),
          .restyleSweep [p.1, p.1]] := by
  refine ⟨rfl, ?_⟩
  apply issued_append
  rfl

theorem runRadar_append (s : State) (cs : List (Option RadarSample)) (c : Option RadarSample) :
    runRadar s (cs ++ [c]) = updateRadar (runRadar s cs) c := by
  simp [runRadar, List.foldl_append]

theorem runRadar_aggregate (ps : List (Int × Int)) :
    ((runRadar State.init (ps.map RadarSample.valid)).radar_data.map Prod.fst).Nodup
      ∧ (∀ a, a ∈ (runRadar State.init (ps.map RadarSample.valid)).radar_data.map Prod.fst
          ↔ a ∈ ps.map Prod.fst)
      ∧ ∀ a d, getProperty (runRadar State.init (ps.map RadarSample.valid)).radar_data a = some d →
          ∃ l r, ps = l ++ (a, d) :: r ∧ ∀ q ∈ r, q.1 ≠ a := by
  induction ps using List.reverseRecOn with
  | nil =>
    refine ⟨by simp [runRadar, State.init], by simp [runRadar, State.init], ?_⟩
    intro a d h
    simp [runRadar, State.init, getProperty] at h
  | append_singleton ps p ih =>
    obtain ⟨hnd, hmem, hget⟩ := ih
    rw [List.map_append, List.map_singleton, runRadar_append, (updateRadar_valid _ p).1]
    refine ⟨?_, ?_, ?_⟩
    · rw [setProperty_keys]
      split
      · exact hnd
      · rename_i hnot
        exact List.Nodup.append hnd (List.nodup_singleton _) (by simpa using hnot)
    · intro a
      rw [setProperty_keys]
      split
      · rename_i hin
        rw [hmem] at hin ⊢
        simp only [List.map_append, List.map_singleton, List.mem_append, List.mem_singleton]
        constructor
        · exact Or.inl
        · rintro (h | h)
          · exact h
          · rw [h]; exact hin
      · simp only [List.map_append, List.map_singleton, List.mem_append, List.mem_singleton, hmem]
    · intro a d h
      rw [getProperty_setProperty] at h
      split at h
      · rename_i hak
        have hd : p.2 = d := Option.some.inj h
        refine ⟨ps, [], ?_, by simp⟩
        rw [hak, ← hd]
      · rename_i hak
        obtain ⟨l, r, hps, hr⟩ := hget a d h
        refine ⟨l, r ++ [p], ?_, ?_⟩
        · rw [hps]; simp
        · intro q hq
          rcases List.mem_append.1 hq with h1 | h1
          · exact hr q h1
          · rw [List.mem_singleton.1 h1]
            exact fun e => hak e.symm


/-! ## Frames: what each update function leaves alone -/

theorem updateRadar_guard (s : State) (r : Option RadarSample) (h : radarGuard r = true) :
    updateRadar s r = s := by
  cases r with
  | none => rfl
  | some r =>
    obtain ⟨a, d⟩ := r
    cases a <;> cases d <;> simp_all [radarGuard, updateRadar]

theorem updateDHT_guard (s : State) (c : Option DHTReading) (h : dhtGuard c = true) :
    updateDHT s c = s := by
  cases c with
  | none => rfl
  | some c =>
    obtain ⟨t, u⟩ := c
    cases t <;> cases u <;> simp_all [dhtGuard, updateDHT]

theorem issued_self (s : State) : issued s s = [] := by
  simp [issued]

theorem updateRadar_frame (s : State) (r : Option RadarSample) :
    (updateRadar s r).ARDUINO_IP = s.ARDUINO_IP
      ∧ (updateRadar s r).ir_ydata = s.ir_ydata
      ∧ (updateRadar s r).dht_temp_data = s.dht_temp_data
      ∧ (updateRadar s r).dht_hum_data = s.dht_hum_data
      ∧ (updateRadar s r).console = s.console
      ∧ (updateRadar s r).fetches = s.fetches
      ∧ (updateRadar s r).plotly = s.plotly ++ issued s (updateRadar s r)
      ∧ ∀ c ∈ issued s (updateRadar s r), c.div = "radar-plot" := by
  by_cases h : radarGuard r = true
  · rw [updateRadar_guard s r h, issued_self]
    simp
  · cases r with
    | none => simp [radarGuard] at h
    | some r =>
      obtain ⟨a, d⟩ := r
      cases a with
      | none => simp [radarGuard] at h
      | some a =>
        cases d with
        | none => simp [radarGuard] at h
        | some d =>
          have hi := (updateRadar_valid s (a, d)).2
          simp only [RadarSample.valid] at hi
          rw [hi]
          refine ⟨rfl, rfl, rfl, rfl, rfl, rfl, rfl, ?_⟩
          intro c hc
          simp only [List.mem_cons, List.mem_singleton, List.not_mem_nil, or_false] at hc
          rcases hc with hc | hc <;> rw [hc] <;> rfl

theorem updateIR_frame (s : State) (v : Option JSNumber) :
    (updateIR s v).ARDUINO_IP = s.ARDUINO_IP
      ∧ (updateIR s v).radar_data = s.radar_data
      ∧ (updateIR s v).dht_temp_data = s.dht_temp_data
      ∧ (updateIR s v).dht_hum_data = s.dht_hum_data
      ∧ (updateIR s v).console = s.console
      ∧ (updateIR s v).fetches = s.fetches
      ∧ (updateIR s v).plotly = s.plotly ++ issued s (updateIR s v)
      ∧ ∀ c ∈ issued s (updateIR s v), c.div = "ir-plot" := by
  cases v with
  | none =>
    simp [updateIR, issued_self]
  | some v =>
    refine ⟨rfl, rfl, rfl, rfl, rfl, rfl, ?_, ?_⟩
    · rw [updateIR_issued]
      simp only [updateIR]
      split <;> simp <;> split <;> simp_all
    · intro c hc
      rw [updateIR_issued] at hc
      split at hc <;>
        simp only [List.mem_cons, List.mem_singleton, List.not_mem_nil, or_false] at hc
      · rcases hc with hc | hc <;> rw [hc] <;> rfl
      · rw [hc]; rfl

theorem updateDHT_frame (s : State) (c : Option DHTReading) :
    (updateDHT s c).ARDUINO_IP = s.ARDUINO_IP
      ∧ (updateDHT s c).radar_data = s.radar_data
      ∧ (updateDHT s c).ir_ydata = s.ir_ydata
      ∧ (updateDHT s c).console = s.console
      ∧ (updateDHT s c).fetches = s.fetches
      ∧ (updateDHT s c).plotly = s.plotly ++ issued s (updateDHT s c)
      ∧ ∀ x ∈ issued s (updateDHT s c), x.div = "dht-plot" := by
  by_cases h : dhtGuard c = true
  · rw [updateDHT_guard s c h, issued_self]
    simp
  · cases c with
    | none => simp [dhtGuard] at h
    | some c =>
      obtain ⟨t, u⟩ := c
      cases t with
      | none => simp [dhtGuard] at h
      | some t =>
        cases u with
        | none => simp [dhtGuard] at h
        | some u =>
          refine ⟨rfl, rfl, rfl, rfl, rfl, ?_, ?_⟩
          · rw [updateDHT_issued]
            simp only [updateDHT]
            split <;> simp <;> split <;> simp_all
          · intro x hx
            rw [updateDHT_issued] at hx
            split at hx <;>
              simp only [List.mem_cons, List.mem_singleton, List.not_mem_nil, or_false] at hx
            · rcases hx with hx | hx <;> rw [hx] <;> rfl
            · rw [hx]; rfl

/-- The buffer and the calls of `updateIR` depend on `ir_ydata` alone. -/
theorem updateIR_congr (s s' : State) (v : Option JSNumber) (h : s.ir_ydata = s'.ir_ydata) :
    (updateIR s v).ir_ydata = (updateIR s' v).ir_ydata
      ∧ issued s (updateIR s v) = issued s' (updateIR s' v) := by
  cases v with
  | none => simp [updateIR, issued_self, h]
  | some v =>
    have hy : (updateIR s (some v)).ir_ydata = (updateIR s' (some v)).ir_ydata := by
      rw [updateIR_ydata, updateIR_ydata, h]
    refine ⟨hy, ?_⟩
    rw [updateIR_issued, updateIR_issued, hy]

/-- The buffers and the calls of `updateDHT` depend on the two DHT buffers alone. -/
theorem updateDHT_congr (s s' : State) (c : Option DHTReading)
    (ht : s.dht_temp_data = s'.dht_temp_data) (hh : s.dht_hum_data = s'.dht_hum_data) :
    (updateDHT s c).dht_temp_data = (updateDHT s' c).dht_temp_data
      ∧ (updateDHT s c).dht_hum_data = (updateDHT s' c).dht_hum_data
      ∧ issued s (updateDHT s c) = issued s' (updateDHT s' c) := by
  by_cases h : dhtGuard c = true
  · rw [updateDHT_guard s c h, updateDHT_guard s' c h, issued_self, issued_self]
    exact ⟨ht, hh, rfl⟩
  · cases c with
    | none => simp [dhtGuard] at h
    | some c =>
      obtain ⟨t, u⟩ := c
      cases t with
      | none => simp [dhtGuard] at h
      | some t =>
        cases u with
        | none => simp [dhtGuard] at h
        | some u =>
          have h1 : (updateDHT s (some ⟨some t, some u⟩)).dht_temp_data
              = (updateDHT s' (some ⟨some t, some u⟩)).dht_temp_data := by
            rw [updateDHT_temp, updateDHT_temp, ht]
          have h2 : (updateDHT s (some ⟨some t, some u⟩)).dht_hum_data
              = (updateDHT s' (some ⟨some t, some u⟩)).dht_hum_data := by
            rw [updateDHT_hum, updateDHT_hum, ht, hh]
          refine ⟨h1, h2, ?_⟩
          rw [updateDHT_issued, updateDHT_issued, h1, h2]

/-- The three update calls of `dispatch` act on separate parts of the state:
each sensor's state and calls are those of its own update applied alone. -/
theorem dispatch_parts (s : State) (d : Data) :
    (dispatch s d).radar_data = (updateRadar s d.radar).radar_data
      ∧ (dispatch s d).ir_ydata = (updateIR s d.ir).ir_ydata
      ∧ (dispatch s d).dht_temp_data = (updateDHT s d.dht).dht_temp_data
      ∧ (dispatch s d).dht_hum_data = (updateDHT s d.dht).dht_hum_data
      ∧ issued s (dispatch s d)
        = issued s (updateRadar s d.radar) ++ issued s (updateIR s d.ir)
            ++ issued s (updateDHT s d.dht) := by
  obtain ⟨_, r2, r3, r4, _, _, r7, _⟩ := updateRadar_frame s d.radar
  obtain ⟨_, i2, i3, i4, _, _, i7, _⟩ := updateIR_frame (updateRadar s d.radar) d.ir
  obtain ⟨_, d2, d3, _, _, d6, _⟩ :=
    updateDHT_frame (updateIR (updateRadar s d.radar) d.ir) d.dht
  obtain ⟨ci1, ci2⟩ := updateIR_congr (updateRadar s d.radar) s d.ir r2
  obtain ⟨cd1, cd2, cd3⟩ := updateDHT_congr (updateIR (updateRadar s d.radar) d.ir) s d.dht
    (i3.trans r3) (i4.trans r4)
  refine ⟨?_, ?_, cd1, cd2, ?_⟩
  · unfold dispatch; rw [d2, i2]
  · unfold dispatch; rw [d3, ci1]
  · apply issued_append
    unfold dispatch
    rw [d6, i7, r7, ci2, cd3]
    simp only [List.append_assoc]


/-! ## Theorems of the claims -/

/-- C1: in a run of `updateRadar` over valid samples from the initial state,
the last call issues a point-cloud command whose angle sequence is strictly
ascending and consists of exactly the angles of the samples applied so far,
and whose distance at each position is the distance of the most recent sample
with the angle at that position (no later sample has that angle); the samples
(45,30), (10,80), (45,50) give angles [10,45], distances [80,50] and sweep line
[45,45]. -/
theorem updateRadar_points_sorted_latest (ps : List (Int × Int)) (p : Int × Int) :
    (∃ angles distances,
      issued (runRadar State.init (ps.map RadarSample.valid))
          (runRadar State.init ((ps ++ [p]).map RadarSample.valid))
        = [.restylePoints distances angles, .restyleSweep [p.1, p.1]]
      ∧ angles.Sorted (· < ·)
      ∧ (∀ a, a ∈ angles ↔ a ∈ (ps ++ [p]).map Prod.fst)
      ∧ distances.length = angles.length
      ∧ ∀ a r, (a, r) ∈ angles.zip distances →
          ∃ d l rest, r = some d ∧ ps ++ [p] = l ++ (a, d) :: rest ∧ ∀ q ∈ rest, q.1 ≠ a)
    ∧ issued (runRadar State.init [RadarSample.valid (45, 30), RadarSample.valid (10, 80)])
          (runRadar State.init [RadarSample.valid (45, 30), RadarSample.valid (10, 80),
            RadarSample.valid (45, 50)])
        = [.restylePoints [some 80, some 50] [10, 45], .restyleSweep [45, 45]] := by
  refine ⟨?_, by decide⟩
  obtain ⟨hnd, hmem, hget⟩ := runRadar_aggregate (ps ++ [p])
  have hrun : runRadar State.init ((ps ++ [p]).map RadarSample.valid)
      = updateRadar (runRadar State.init (ps.map RadarSample.valid)) (RadarSample.valid p) := by
    rw [List.map_append, List.map_singleton, runRadar_append]
  have hdata := (updateRadar_valid (runRadar State.init (ps.map RadarSample.valid)) p).1
  have hiss := (updateRadar_valid (runRadar State.init (ps.map RadarSample.valid)) p).2
  rw [← hrun] at hdata hiss
  rw [← hdata] at hiss
  obtain ⟨hsorted, hkeys⟩ := sorted_angles_spec _ hnd
  refine ⟨_, _, hiss, hsorted, ?_, by simp, ?_⟩
  · intro a
    rw [hkeys, hmem]
  · intro a r har
    obtain ⟨ha, hr⟩ := mem_zip_map_self _ _ a r har
    obtain ⟨d, hd⟩ := getProperty_of_mem _ a ((hkeys a).1 ha)
    obtain ⟨l, rest, hl, hrest⟩ := hget a d hd
    exact ⟨d, l, rest, hr.trans hd, hl, hrest⟩

/-- C2: pushing any sequence `vs` of present values through `updateIR`, one by
one from the empty `ir_ydata`, leaves the buffer equal to the last
`min vs.length 20` values of `vs` in arrival order (all of `vs` dropped except
its last 20 entries), so its length is `min vs.length 20`; pushing 1..25 leaves
6..25. -/
theorem updateIR_keeps_last_twenty (vs : List JSNumber) :
    (runIR State.init (vs.map some)).ir_ydata = vs.drop (vs.length - 20)
      ∧ (runIR State.init (vs.map some)).ir_ydata.length = min vs.length 20
      ∧ (runIR State.init
            ((List.range 25).map fun (i : Nat) => some (.finite ((i : ℚ) + 1)))).ir_ydata
          = (List.range 20).map fun (i : Nat) => .finite ((i : ℚ) + 6) := by
  have h := runIR_ydata (vs.map some)
  rw [reduceOption_map_some] at h
  refine ⟨h, ?_, ?_⟩
  · rw [h]
    exact window_length vs
  · have h25 := runIR_ydata
      (((List.range 25).map fun (i : Nat) => JSNumber.finite ((i : ℚ) + 1)).map some)
    rw [reduceOption_map_some, List.map_map] at h25
    refine Eq.trans h25 ?_
    norm_num [List.range_succ]

/-- C4: after any sequence of `updateDHT` calls from the initial state, valid
readings and invalid ones (reading absent, temperature absent, humidity
absent) interleaved in any way, `dht_temp_data` and `dht_hum_data` have the
same length. -/
theorem updateDHT_equal_lengths (calls : List (Option DHTReading)) :
    (runDHT State.init calls).dht_temp_data.length
      = (runDHT State.init calls).dht_hum_data.length := by
  obtain ⟨ht, hh⟩ := runDHT_buffers calls
  rw [ht, hh]
  simp

/-- C10: after any sequence of `updateDHT` calls from the initial state, of
which `N` carry a valid reading, `dht_temp_data` is the temperatures and
`dht_hum_data` the humidities of the last `min N 20` valid readings in arrival
order; so pairing the two series index by index gives back those readings, and
both series have length `min N 20`, at most 20. -/
theorem updateDHT_lockstep_window (calls : List (Option DHTReading)) :
    (runDHT State.init calls).dht_temp_data
        = ((validReadings calls).drop ((validReadings calls).length - 20)).map Prod.fst
      ∧ (runDHT State.init calls).dht_hum_data
        = ((validReadings calls).drop ((validReadings calls).length - 20)).map Prod.snd
      ∧ List.zip (runDHT State.init calls).dht_temp_data (runDHT State.init calls).dht_hum_data
        = (validReadings calls).drop ((validReadings calls).length - 20)
      ∧ (runDHT State.init calls).dht_temp_data.length = min (validReadings calls).length 20
      ∧ (runDHT State.init calls).dht_hum_data.length = min (validReadings calls).length 20
      ∧ (runDHT State.init calls).dht_temp_data.length ≤ 20
      ∧ (runDHT State.init calls).dht_hum_data.length ≤ 20 := by
  obtain ⟨ht, hh⟩ := runDHT_buffers calls
  have hl := window_length (validReadings calls)
  refine ⟨ht, hh, ?_, ?_, ?_, ?_, ?_⟩
  · rw [ht, hh]; exact (List.zip_of_prod rfl rfl).symm
  · rw [ht, List.length_map, hl]
  · rw [hh, List.length_map, hl]
  · rw [ht, List.length_map, hl]; exact Nat.min_le_right _ _
  · rw [hh, List.length_map, hl]; exact Nat.min_le_right _ _

/-- C8: a call of `updateIR` with a present value, and a call of `updateDHT`
with a valid reading, issues exactly one relayout command when the buffer
(`ir_ydata`, respectively `dht_temp_data`) holds more than one element after
the push and eviction, and none otherwise.  In a run from the initial state
the first valid push issues no relayout command and every later valid push
issues exactly one. -/
theorem relayout_iff_more_than_one (s : State) (v t h : JSNumber)
    (cs : List (Option JSNumber)) (ds : List (Option DHTReading)) :
    ((issued s (updateIR s (some v))).filter PlotlyCall.isRelayout).length
        = (if 1 < (updateIR s (some v)).ir_ydata.length then 1 else 0)
      ∧ ((issued s (updateDHT s (some ⟨some t, some h⟩))).filter PlotlyCall.isRelayout).length
        = (if 1 < (updateDHT s (some ⟨some t, some h⟩)).dht_temp_data.length then 1 else 0)
      ∧ ((issued (runIR State.init cs) (runIR State.init (cs ++ [some v]))).filter
            PlotlyCall.isRelayout).length
        = (if cs.reduceOption = [] then 0 else 1)
      ∧ ((issued (runDHT State.init ds) (runDHT State.init (ds ++ [some ⟨some t, some h⟩]))).filter
            PlotlyCall.isRelayout).length
        = (if validReadings ds = [] then 0 else 1) := by
  have hIR : ∀ s : State, ((issued s (updateIR s (some v))).filter PlotlyCall.isRelayout).length
        = (if 1 < (updateIR s (some v)).ir_ydata.length then 1 else 0) := by
    intro s
    rw [updateIR_issued]
    split <;> simp [PlotlyCall.isRelayout, *]
  have hDHT : ∀ s : State,
      ((issued s (updateDHT s (some ⟨some t, some h⟩))).filter PlotlyCall.isRelayout).length
        = (if 1 < (updateDHT s (some ⟨some t, some h⟩)).dht_temp_data.length then 1 else 0) := by
    intro s
    rw [updateDHT_issued]
    split <;> simp [PlotlyCall.isRelayout, *]
  refine ⟨hIR s, hDHT s, ?_, ?_⟩
  · rw [runIR_append, hIR, ← runIR_append, runIR_ydata, window_length,
      List.reduceOption_append]
    cases hro : cs.reduceOption with
    | nil => simp [List.reduceOption]
    | cons a l =>
      simp [List.reduceOption]
  · rw [runDHT_append, hDHT, ← runDHT_append, (runDHT_buffers _).1, List.length_map,
      window_length, validReadings_append_valid]
    cases hro : validReadings ds with
    | nil => simp
    | cons a l => simp

/-- C9 (counterexample): with the IR buffer holding 1, pushing 2^53 issues the
axis range `[0, 2^53]`: the greatest element of the buffer is 2^53 and the
upper bound issued is 2^53 itself, not 2^53 + 1. -/
theorem relayout_range_rounded :
    issued (runIR State.init [some (.finite 1)])
        (updateIR (runIR State.init [some (.finite 1)]) (some (.finite 9007199254740992)))
      = [.updateIR [0, 1] [.finite 1, .finite 9007199254740992],
          .relayoutIR (.finite 0) (.finite 9007199254740992)]
      ∧ mathMax [.finite 1, .finite 9007199254740992] = .finite 9007199254740992
      ∧ JSNumber.finite 9007199254740992 ≠ .finite (9007199254740992 + 1) := by
  have hmin : mathMin [.finite 1, .finite 9007199254740992] = .finite 1 := by
    norm_num [mathMin, JSNumber.lt]
  have hmax : mathMax [.finite 1, .finite 9007199254740992] = .finite 9007199254740992 := by
    norm_num [mathMax, JSNumber.lt]
  have hlo : (JSNumber.finite 1).add (-1) = .finite 0 := by
    have h := add_int_exact 1 (-1) (by norm_num)
    norm_num at h
    exact h
  have hhi : (JSNumber.finite 9007199254740992).add 1 = .finite 9007199254740992 :=
    roundDouble_two_pow_53_succ
  have hb : (updateIR (runIR State.init [some (.finite 1)])
      (some (.finite 9007199254740992))).ir_ydata = [.finite 1, .finite 9007199254740992] := rfl
  refine ⟨?_, hmax, by norm_num⟩
  rw [updateIR_issued, hb, hmin, hmax, hlo, hhi]
  rfl

/-- C9 (amended): when `updateIR` issues an axis range it is
`[m - 1, M + 1]` in double arithmetic, with `m` the least and `M` the greatest
element of `ir_ydata` after the push and eviction.  When `updateDHT` issues
axis ranges, in a state whose temperature and humidity buffers have equal
length, the temperature range is `[m - 1, M + 1]` over `dht_temp_data` and the
humidity range is `[m2 - 5, M2 + 5]` over `dht_hum_data`, in double arithmetic,
each over its own buffer after the push and eviction.  A bound computed in
double arithmetic is the exact sum whenever the exact sum is a double, as it is
for integers whose sum is below 2^53 in magnitude; an infinite least or
greatest element is issued unchanged. -/
theorem relayout_ranges (s : State) (v t h : JSNumber)
    (hlen : s.dht_temp_data.length = s.dht_hum_data.length) :
    (∀ lo hi, PlotlyCall.relayoutIR lo hi ∈ issued s (updateIR s (some v)) →
        ∃ m M, m ∈ (updateIR s (some v)).ir_ydata
          ∧ (∀ x ∈ (updateIR s (some v)).ir_ydata, x.lt m = false)
          ∧ M ∈ (updateIR s (some v)).ir_ydata
          ∧ (∀ x ∈ (updateIR s (some v)).ir_ydata, M.lt x = false)
          ∧ lo = m.add (-1) ∧ hi = M.add 1)
      ∧ (∀ lo hi lo2 hi2,
          PlotlyCall.relayoutDHT lo hi lo2 hi2
              ∈ issued s (updateDHT s (some ⟨some t, some h⟩)) →
        ∃ m M m2 M2,
          m ∈ (updateDHT s (some ⟨some t, some h⟩)).dht_temp_data
          ∧ (∀ x ∈ (updateDHT s (some ⟨some t, some h⟩)).dht_temp_data, x.lt m = false)
          ∧ M ∈ (updateDHT s (some ⟨some t, some h⟩)).dht_temp_data
          ∧ (∀ x ∈ (updateDHT s (some ⟨some t, some h⟩)).dht_temp_data, M.lt x = false)
          ∧ m2 ∈ (updateDHT s (some ⟨some t, some h⟩)).dht_hum_data
          ∧ (∀ x ∈ (updateDHT s (some ⟨some t, some h⟩)).dht_hum_data, x.lt m2 = false)
          ∧ M2 ∈ (updateDHT s (some ⟨some t, some h⟩)).dht_hum_data
          ∧ (∀ x ∈ (updateDHT s (some ⟨some t, some h⟩)).dht_hum_data, M2.lt x = false)
          ∧ lo = m.add (-1) ∧ hi = M.add 1
          ∧ lo2 = m2.add (-5) ∧ hi2 = M2.add 5)
      ∧ (∀ q k : ℚ, isDouble (q + k) → (JSNumber.finite q).add k = .finite (q + k))
      ∧ (∀ n k : ℤ, |n + k| < 2 ^ 53 →
          (JSNumber.finite n).add k = .finite ((n + k : ℤ) : ℚ))
      ∧ (∀ k : ℚ, JSNumber.infinity.add k = .infinity
          ∧ JSNumber.negInfinity.add k = .negInfinity) := by
  refine ⟨?_, ?_, add_exact, add_int_exact, fun _ => ⟨rfl, rfl⟩⟩
  · intro lo hi hmem
    rw [updateIR_issued] at hmem
    split at hmem
    · rename_i hgt
      have hne : (updateIR s (some v)).ir_ydata ≠ [] := by
        intro h0; rw [h0] at hgt; simp at hgt
      simp only [List.mem_cons, PlotlyCall.relayoutIR.injEq, List.mem_singleton, reduceCtorEq,
        false_or, List.not_mem_nil, or_false] at hmem
      obtain ⟨hm, hmle⟩ := mathMin_spec _ hne
      obtain ⟨hM, hMle⟩ := mathMax_spec _ hne
      exact ⟨_, _, hm, hmle, hM, hMle, hmem.1, hmem.2⟩
    · simp at hmem
  · intro lo hi lo2 hi2 hmem
    rw [updateDHT_issued] at hmem
    split at hmem
    · rename_i hgt
      have hnt : (updateDHT s (some ⟨some t, some h⟩)).dht_temp_data ≠ [] := by
        intro h0; rw [h0] at hgt; simp at hgt
      have hnh : (updateDHT s (some ⟨some t, some h⟩)).dht_hum_data ≠ [] := by
        rw [updateDHT_hum]
        split
        · rename_i h20
          simp only [List.length_append, List.length_singleton] at h20
          intro h0
          have := congrArg List.length h0
          simp only [List.length_tail, List.length_append, List.length_singleton,
            List.length_nil] at this
          omega
        · simp
      simp only [List.mem_cons, PlotlyCall.relayoutDHT.injEq, List.mem_singleton, reduceCtorEq,
        false_or, List.not_mem_nil, or_false] at hmem
      obtain ⟨hm, hmle⟩ := mathMin_spec _ hnt
      obtain ⟨hM, hMle⟩ := mathMax_spec _ hnt
      obtain ⟨hm2, hmle2⟩ := mathMin_spec _ hnh
      obtain ⟨hM2, hMle2⟩ := mathMax_spec _ hnh
      exact ⟨_, _, _, _, hm, hmle, hM, hMle, hm2, hmle2, hM2, hMle2,
        hmem.1, hmem.2.1, hmem.2.2.1, hmem.2.2.2⟩
    · simp at hmem


/-- Witness for C9 (amended): after the pushes 1..24, pushing 25 issues the IR
range `[5, 26]`, one below the least and one above the greatest element of the
buffer 6..25; after the reading (70, 40), the reading (72.5, 45) issues the
temperature range `[69, 73.5]` and the humidity range `[35, 50]`; and
`72.5 + 1` is the double `73.5`. -/
theorem relayout_ranges_witness :
    (runDHT State.init [some ⟨some (.finite 70), some (.finite 40)⟩]).dht_temp_data.length
        = (runDHT State.init [some ⟨some (.finite 70), some (.finite 40)⟩]).dht_hum_data.length
      ∧ issued
          (runIR State.init
          [some (.finite 1), some (.finite 2), some (.finite 3), some (.finite 4), some
           (.finite 5), some (.finite 6), some (.finite 7), some (.finite 8), some (.finite
           9), some (.finite 10), some (.finite 11), some (.finite 12), some (.finite 13),
           some (.finite 14), some (.finite 15), some (.finite 16), some (.finite 17), some
           (.finite 18), some (.finite 19), some (.finite 20), some (.finite 21), some
           (.finite 22), some (.finite 23), some (.finite 24)])
          (updateIR
            (runIR State.init
          [some (.finite 1), some (.finite 2), some (.finite 3), some (.finite 4), some
           (.finite 5), some (.finite 6), some (.finite 7), some (.finite 8), some (.finite
           9), some (.finite 10), some (.finite 11), some (.finite 12), some (.finite 13),
           some (.finite 14), some (.finite 15), some (.finite 16), some (.finite 17), some
           (.finite 18), some (.finite 19), some (.finite 20), some (.finite 21), some
           (.finite 22), some (.finite 23), some (.finite 24)])
            (some (.finite 25)))
        = [.updateIR (List.range 20)
              [.finite 6, .finite 7, .finite 8, .finite 9, .finite 10, .finite 11, .finite 12,
             .finite 13, .finite 14, .finite 15, .finite 16, .finite 17, .finite 18, .finite
             19, .finite 20, .finite 21, .finite 22, .finite 23, .finite 24, .finite 25],
            .relayoutIR (.finite 5) (.finite 26)]
      ∧ (∃ m M : JSNumber,
          m ∈ ([.finite 6, .finite 7, .finite 8, .finite 9, .finite 10, .finite 11, .finite 12,
             .finite 13, .finite 14, .finite 15, .finite 16, .finite 17, .finite 18, .finite
             19, .finite 20, .finite 21, .finite 22, .finite 23, .finite 24, .finite 25] : List JSNumber)
          ∧ M ∈ ([.finite 6, .finite 7, .finite 8, .finite 9, .finite 10, .finite 11, .finite 12,
             .finite 13, .finite 14, .finite 15, .finite 16, .finite 17, .finite 18, .finite
             19, .finite 20, .finite 21, .finite 22, .finite 23, .finite 24, .finite 25] : List JSNumber)
          ∧ JSNumber.finite 5 = m.add (-1) ∧ JSNumber.finite 26 = M.add 1)
      ∧ issued (runDHT State.init [some ⟨some (.finite 70), some (.finite 40)⟩])
          (updateDHT (runDHT State.init [some ⟨some (.finite 70), some (.finite 40)⟩])
            (some ⟨some (.finite (145 / 2)), some (.finite 45)⟩))
        = [.updateDHT [0, 1] [0, 1] [.finite 70, .finite (145 / 2)] [.finite 40, .finite 45],
            .relayoutDHT (.finite 69) (.finite (147 / 2)) (.finite 35) (.finite 50)]
      ∧ (∃ m M m2 M2 : JSNumber,
          m ∈ ([.finite 70, .finite (145 / 2)] : List JSNumber)
          ∧ M ∈ ([.finite 70, .finite (145 / 2)] : List JSNumber)
          ∧ m2 ∈ ([.finite 40, .finite 45] : List JSNumber)
          ∧ M2 ∈ ([.finite 40, .finite 45] : List JSNumber)
          ∧ JSNumber.finite 69 = m.add (-1) ∧ JSNumber.finite (147 / 2) = M.add 1
          ∧ JSNumber.finite 35 = m2.add (-5) ∧ JSNumber.finite 50 = M2.add 5)
      ∧ isDouble ((145 / 2 : ℚ) + 1)
      ∧ (JSNumber.finite (145 / 2)).add 1 = .finite (145 / 2 + 1) := by
  have hlen : (runDHT State.init [some ⟨some (.finite 70), some (.finite 40)⟩]).dht_temp_data.length
      = (runDHT State.init [some ⟨some (.finite 70), some (.finite 40)⟩]).dht_hum_data.length := rfl
  have hd1 : isDouble ((145 / 2 : ℚ) + 1) :=
    ⟨147, -1, by norm_num, by norm_num, by norm_num, by norm_num⟩
  have hexact := (relayout_ranges (runDHT State.init [some ⟨some (.finite 70), some (.finite 40)⟩])
    (.finite 25) (.finite (145 / 2)) (.finite 45) hlen).2.2.1
  have hint := (relayout_ranges (runDHT State.init [some ⟨some (.finite 70), some (.finite 40)⟩])
    (.finite 25) (.finite (145 / 2)) (.finite 45) hlen).2.2.2.1
  have a1 : (JSNumber.finite 6).add (-1) = .finite 5 := by
    have h := hint 6 (-1) (by norm_num)
    norm_num at h
    exact h
  have a2 : (JSNumber.finite 25).add 1 = .finite 26 := by
    have h := hint 25 1 (by norm_num)
    norm_num at h
    exact h
  have a3 : (JSNumber.finite 70).add (-1) = .finite 69 := by
    have h := hint 70 (-1) (by norm_num)
    norm_num at h
    exact h
  have a4 : (JSNumber.finite (145 / 2)).add 1 = .finite (147 / 2) := by
    have h := hexact (145 / 2) 1 hd1
    norm_num at h
    exact h
  have a5 : (JSNumber.finite 40).add (-5) = .finite 35 := by
    have h := hint 40 (-5) (by norm_num)
    norm_num at h
    exact h
  have a6 : (JSNumber.finite 45).add 5 = .finite 50 := by
    have h := hint 45 5 (by norm_num)
    norm_num at h
    exact h
  have hb : (updateIR
      (runIR State.init
          [some (.finite 1), some (.finite 2), some (.finite 3), some (.finite 4), some
           (.finite 5), some (.finite 6), some (.finite 7), some (.finite 8), some (.finite
           9), some (.finite 10), some (.finite 11), some (.finite 12), some (.finite 13),
           some (.finite 14), some (.finite 15), some (.finite 16), some (.finite 17), some
           (.finite 18), some (.finite 19), some (.finite 20), some (.finite 21), some
           (.finite 22), some (.finite 23), some (.finite 24)])
      (some (.finite 25))).ir_ydata
      = [.finite 6, .finite 7, .finite 8, .finite 9, .finite 10, .finite 11, .finite 12,
             .finite 13, .finite 14, .finite 15, .finite 16, .finite 17, .finite 18, .finite
             19, .finite 20, .finite 21, .finite 22, .finite 23, .finite 24, .finite 25] := rfl
  have hmin : mathMin
      ([.finite 6, .finite 7, .finite 8, .finite 9, .finite 10, .finite 11, .finite 12,
             .finite 13, .finite 14, .finite 15, .finite 16, .finite 17, .finite 18, .finite
             19, .finite 20, .finite 21, .finite 22, .finite 23, .finite 24, .finite 25] : List JSNumber) = .finite 6 := by
    norm_num [mathMin, JSNumber.lt]
  have hmax : mathMax
      ([.finite 6, .finite 7, .finite 8, .finite 9, .finite 10, .finite 11, .finite 12,
             .finite 13, .finite 14, .finite 15, .finite 16, .finite 17, .finite 18, .finite
             19, .finite 20, .finite 21, .finite 22, .finite 23, .finite 24, .finite 25] : List JSNumber) = .finite 25 := by
    norm_num [mathMax, JSNumber.lt]
  have hissIR : issued
      (runIR State.init
          [some (.finite 1), some (.finite 2), some (.finite 3), some (.finite 4), some
           (.finite 5), some (.finite 6), some (.finite 7), some (.finite 8), some (.finite
           9), some (.finite 10), some (.finite 11), some (.finite 12), some (.finite 13),
           some (.finite 14), some (.finite 15), some (.finite 16), some (.finite 17), some
           (.finite 18), some (.finite 19), some (.finite 20), some (.finite 21), some
           (.finite 22), some (.finite 23), some (.finite 24)])
      (updateIR
        (runIR State.init
          [some (.finite 1), some (.finite 2), some (.finite 3), some (.finite 4), some
           (.finite 5), some (.finite 6), some (.finite 7), some (.finite 8), some (.finite
           9), some (.finite 10), some (.finite 11), some (.finite 12), some (.finite 13),
           some (.finite 14), some (.finite 15), some (.finite 16), some (.finite 17), some
           (.finite 18), some (.finite 19), some (.finite 20), some (.finite 21), some
           (.finite 22), some (.finite 23), some (.finite 24)])
        (some (.finite 25)))
      = [.updateIR (List.range 20)
            [.finite 6, .finite 7, .finite 8, .finite 9, .finite 10, .finite 11, .finite 12,
             .finite 13, .finite 14, .finite 15, .finite 16, .finite 17, .finite 18, .finite
             19, .finite 20, .finite 21, .finite 22, .finite 23, .finite 24, .finite 25],
          .relayoutIR (.finite 5) (.finite 26)] := by
    rw [updateIR_issued, hb, hmin, hmax, a1, a2]
    rfl
  have hbt : (updateDHT (runDHT State.init [some ⟨some (.finite 70), some (.finite 40)⟩])
      (some ⟨some (.finite (145 / 2)), some (.finite 45)⟩)).dht_temp_data = [.finite 70, .finite (145 / 2)] := rfl
  have hbh : (updateDHT (runDHT State.init [some ⟨some (.finite 70), some (.finite 40)⟩])
      (some ⟨some (.finite (145 / 2)), some (.finite 45)⟩)).dht_hum_data = [.finite 40, .finite 45] := rfl
  have hmint : mathMin ([.finite 70, .finite (145 / 2)] : List JSNumber) = .finite 70 := by
    norm_num [mathMin, JSNumber.lt]
  have hmaxt : mathMax ([.finite 70, .finite (145 / 2)] : List JSNumber)
      = .finite (145 / 2) := by
    norm_num [mathMax, JSNumber.lt]
  have hminh : mathMin ([.finite 40, .finite 45] : List JSNumber) = .finite 40 := by
    norm_num [mathMin, JSNumber.lt]
  have hmaxh : mathMax ([.finite 40, .finite 45] : List JSNumber) = .finite 45 := by
    norm_num [mathMax, JSNumber.lt]
  have hissD : issued (runDHT State.init [some ⟨some (.finite 70), some (.finite 40)⟩])
      (updateDHT (runDHT State.init [some ⟨some (.finite 70), some (.finite 40)⟩])
        (some ⟨some (.finite (145 / 2)), some (.finite 45)⟩))
      = [.updateDHT [0, 1] [0, 1] [.finite 70, .finite (145 / 2)] [.finite 40, .finite 45],
          .relayoutDHT (.finite 69) (.finite (147 / 2)) (.finite 35) (.finite 50)] := by
    rw [updateDHT_issued, hbt, hbh, hmint, hmaxt, hminh, hmaxh, a3, a4, a5, a6]
    rfl
  refine ⟨hlen, hissIR, ?_, hissD, ?_, hd1, hexact _ _ hd1⟩
  · obtain ⟨m, M, hm, _, hM, _, h1, h2⟩ :=
      (relayout_ranges
        (runIR State.init
          [some (.finite 1), some (.finite 2), some (.finite 3), some (.finite 4), some
           (.finite 5), some (.finite 6), some (.finite 7), some (.finite 8), some (.finite
           9), some (.finite 10), some (.finite 11), some (.finite 12), some (.finite 13),
           some (.finite 14), some (.finite 15), some (.finite 16), some (.finite 17), some
           (.finite 18), some (.finite 19), some (.finite 20), some (.finite 21), some
           (.finite 22), some (.finite 23), some (.finite 24)])
        (.finite 25) (.finite (145 / 2)) (.finite 45) rfl).1
        (.finite 5) (.finite 26) (by rw [hissIR]; simp)
    rw [hb] at hm hM
    exact ⟨m, M, hm, hM, h1, h2⟩
  · obtain ⟨m, M, m2, M2, hm, _, hM, _, hm2, _, hM2, _, h1, h2, h3, h4⟩ :=
      (relayout_ranges (runDHT State.init [some ⟨some (.finite 70), some (.finite 40)⟩])
        (.finite 25) (.finite (145 / 2)) (.finite 45) hlen).2.1
        (.finite 69) (.finite (147 / 2)) (.finite 35) (.finite 50) (by rw [hissD]; simp)
    rw [hbt] at hm hM
    rw [hbh] at hm2 hM2
    exact ⟨m, M, m2, M2, hm, hM, hm2, hM2, h1, h2, h3, h4⟩


/-- C3 (counterexample): with the endpoint set to 192.168.4.1, `setIP` on an
input of two blanks, whose trimmed form is empty, leaves the stored endpoint
empty and not equal to its previous value. -/
theorem setIP_blank_clears_endpoint :
    trim "  " = ""
      ∧ (setIP { State.init with ARDUINO_IP := "192.168.4.1" } "  ").ARDUINO_IP = ""
      ∧ (setIP { State.init with ARDUINO_IP := "192.168.4.1" } "  ").ARDUINO_IP
          ≠ ({ State.init with ARDUINO_IP := "192.168.4.1" } : State).ARDUINO_IP := by
  decide

/-- C3 (amended): for every state and every raw input, `setIP` stores the
trimmed input as the endpoint and changes nothing else but the console: when
the trimmed form is empty the stored endpoint becomes the empty string,
whatever it was before, and nothing is logged; when it is non-empty it
replaces the endpoint and one entry is logged. -/
theorem setIP_stores_trimmed (s : State) (raw : String) :
    (setIP s raw).ARDUINO_IP = trim raw
      ∧ (trim raw = "" → (setIP s raw).ARDUINO_IP = "" ∧ (setIP s raw).console = s.console)
      ∧ (trim raw ≠ "" →
          (setIP s raw).console = s.console ++ [.log ("Arduino IP set to: " ++ trim raw)])
      ∧ (setIP s raw).radar_data = s.radar_data
      ∧ (setIP s raw).ir_ydata = s.ir_ydata
      ∧ (setIP s raw).dht_temp_data = s.dht_temp_data
      ∧ (setIP s raw).dht_hum_data = s.dht_hum_data
      ∧ (setIP s raw).plotly = s.plotly
      ∧ (setIP s raw).fetches = s.fetches := by
  by_cases h : trim raw = ""
  · simp [setIP, h]
  · simp [setIP, h]

/-- Witness for C3 (amended): the input of two blanks on the endpoint
192.168.4.1, and the input " 10.0.0.7 " which is stored as 10.0.0.7. -/
theorem setIP_stores_trimmed_witness :
    trim "  " = ""
      ∧ ((setIP { State.init with ARDUINO_IP := "192.168.4.1" } "  ").ARDUINO_IP = ""
        ∧ (setIP { State.init with ARDUINO_IP := "192.168.4.1" } "  ").console = [])
      ∧ trim " 10.0.0.7 " ≠ ""
      ∧ (setIP State.init " 10.0.0.7 ").console
          = [] ++ [.log ("Arduino IP set to: " ++ trim " 10.0.0.7 ")] :=
  ⟨by decide,
    (setIP_stores_trimmed { State.init with ARDUINO_IP := "192.168.4.1" } "  ").2.1 (by decide),
    by decide,
    (setIP_stores_trimmed State.init " 10.0.0.7 ").2.2.1 (by decide)⟩

/-- C5: with an endpoint configured, when the fetch resolves with a status for
which `response.ok` is false, the `try` block of `updateData` throws the HTTP
error, `updateData` itself returns a state, having requested the URL once and
logged the error, and the endpoint, the radar aggregate, the IR buffer, the two
DHT buffers and the chart are as before the call. -/
theorem updateData_http_error (s : State) (net : String → FetchOutcome) (status : Nat)
    (json : Except String Data)
    (hip : s.ARDUINO_IP ≠ "")
    (hnet : net ("http://" ++ s.ARDUINO_IP ++ "/") = .response status json)
    (hok : responseOk status = false) :
    (updateDataTry s net).2 = some ("HTTP error! Status: " ++ toString status)
      ∧ (updateData s net).console
          = s.console ++ [.error "Error fetching data:" ("HTTP error! Status: " ++ toString status)]
      ∧ (updateData s net).fetches = s.fetches ++ ["http://" ++ s.ARDUINO_IP ++ "/"]
      ∧ (updateData s net).radar_data = s.radar_data
      ∧ (updateData s net).ir_ydata = s.ir_ydata
      ∧ (updateData s net).dht_temp_data = s.dht_temp_data
      ∧ (updateData s net).dht_hum_data = s.dht_hum_data
      ∧ (updateData s net).plotly = s.plotly
      ∧ (updateData s net).ARDUINO_IP = s.ARDUINO_IP := by
  have htry : updateDataTry s net
      = ({ s with fetches := s.fetches ++ ["http://" ++ s.ARDUINO_IP ++ "/"] },
          some ("HTTP error! Status: " ++ toString status)) := by
    simp [updateDataTry, hnet, hok]
  refine ⟨by rw [htry], ?_⟩
  simp [updateData, hip, htry]

/-- Witness for C5: the endpoint 192.168.4.1 answering with status 500. -/
theorem updateData_http_error_witness :
    ({ State.init with ARDUINO_IP := "192.168.4.1" } : State).ARDUINO_IP ≠ ""
      ∧ responseOk 500 = false
      ∧ (updateData { State.init with ARDUINO_IP := "192.168.4.1" }
            (fun _ => .response 500 (.ok ⟨none, some (.finite 3), none⟩))).console
          = [] ++ [.error "Error fetching data:" ("HTTP error! Status: " ++ toString 500)]
      ∧ (updateData { State.init with ARDUINO_IP := "192.168.4.1" }
            (fun _ => .response 500 (.ok ⟨none, some (.finite 3), none⟩))).ir_ydata = [] :=
  ⟨by decide, by decide,
    (updateData_http_error { State.init with ARDUINO_IP := "192.168.4.1" }
      (fun _ => .response 500 (.ok ⟨none, some (.finite 3), none⟩)) 500 (.ok ⟨none, some (.finite 3), none⟩)
      (by decide) rfl (by decide)).2.1,
    by decide⟩

/-- C6: in a state with no endpoint configured (`ARDUINO_IP` empty),
`updateData` returns the state it was given: no URL is requested, nothing is
logged, no chart call is issued, and the endpoint, the radar aggregate and the
three buffers are unchanged. -/
theorem updateData_no_endpoint (s : State) (net : String → FetchOutcome)
    (h : s.ARDUINO_IP = "") :
    updateData s net = s
      ∧ (updateData s net).fetches = s.fetches
      ∧ (updateData s net).console = s.console
      ∧ issued s (updateData s net) = []
      ∧ (updateData s net).ARDUINO_IP = s.ARDUINO_IP
      ∧ (updateData s net).radar_data = s.radar_data
      ∧ (updateData s net).ir_ydata = s.ir_ydata
      ∧ (updateData s net).dht_temp_data = s.dht_temp_data
      ∧ (updateData s net).dht_hum_data = s.dht_hum_data := by
  have hs : updateData s net = s := by simp [updateData, h]
  rw [hs]
  simp [issued_self]

/-- Witness for C6: the initial state, with a network that would answer with
a full reading. -/
theorem updateData_no_endpoint_witness :
    State.init.ARDUINO_IP = ""
      ∧ updateData State.init
          (fun _ => .response 200 (.ok ⟨some ⟨some 45, some 30⟩, some (.finite 3), some ⟨some (.finite 70), some (.finite 40)⟩⟩))
        = State.init :=
  ⟨rfl, (updateData_no_endpoint State.init _ rfl).1⟩

/-- C7: for every decoded response `d` dispatched from any state, if the radar
part fails the guard of `updateRadar` (absent, or without angle or distance)
then `radar_data` is unchanged and no call to the radar chart is issued; if
`ir` is absent then `ir_ydata` is unchanged and no call to the IR chart is
issued; if the DHT part fails the guard of `updateDHT` (absent, or without
temperature or humidity) then both DHT buffers are unchanged and no call to
the DHT chart is issued.  In each case the state and the calls of the other
two sensors are those of their own update applied alone to the starting
state. -/
theorem dispatch_skips_missing_part (s : State) (d : Data) :
    (radarGuard d.radar = true →
        (dispatch s d).radar_data = s.radar_data
        ∧ (∀ c ∈ issued s (dispatch s d), c.div ≠ "radar-plot")
        ∧ (dispatch s d).ir_ydata = (updateIR s d.ir).ir_ydata
        ∧ (dispatch s d).dht_temp_data = (updateDHT s d.dht).dht_temp_data
        ∧ (dispatch s d).dht_hum_data = (updateDHT s d.dht).dht_hum_data
        ∧ issued s (dispatch s d) = issued s (updateIR s d.ir) ++ issued s (updateDHT s d.dht))
      ∧ (d.ir = none →
        (dispatch s d).ir_ydata = s.ir_ydata
        ∧ (∀ c ∈ issued s (dispatch s d), c.div ≠ "ir-plot")
        ∧ (dispatch s d).radar_data = (updateRadar s d.radar).radar_data
        ∧ (dispatch s d).dht_temp_data = (updateDHT s d.dht).dht_temp_data
        ∧ (dispatch s d).dht_hum_data = (updateDHT s d.dht).dht_hum_data
        ∧ issued s (dispatch s d)
            = issued s (updateRadar s d.radar) ++ issued s (updateDHT s d.dht))
      ∧ (dhtGuard d.dht = true →
        (dispatch s d).dht_temp_data = s.dht_temp_data
        ∧ (dispatch s d).dht_hum_data = s.dht_hum_data
        ∧ (∀ c ∈ issued s (dispatch s d), c.div ≠ "dht-plot")
        ∧ (dispatch s d).radar_data = (updateRadar s d.radar).radar_data
        ∧ (dispatch s d).ir_ydata = (updateIR s d.ir).ir_ydata
        ∧ issued s (dispatch s d)
            = issued s (updateRadar s d.radar) ++ issued s (updateIR s d.ir)) := by
  obtain ⟨hr, hi, ht, hh, hiss⟩ := dispatch_parts s d
  have dr := (updateRadar_frame s d.radar).2.2.2.2.2.2.2
  have di := (updateIR_frame s d.ir).2.2.2.2.2.2.2
  have dd := (updateDHT_frame s d.dht).2.2.2.2.2.2
  refine ⟨?_, ?_, ?_⟩
  · intro hg
    have h0 := updateRadar_guard s d.radar hg
    have hiss' : issued s (dispatch s d)
        = issued s (updateIR s d.ir) ++ issued s (updateDHT s d.dht) := by
      rw [hiss, h0, issued_self, List.nil_append]
    refine ⟨by rw [hr, h0], ?_, hi, ht, hh, hiss'⟩
    intro c hc
    rw [hiss'] at hc
    rcases List.mem_append.1 hc with h1 | h1
    · rw [di c h1]; decide
    · rw [dd c h1]; decide
  · intro hg
    have h0 : updateIR s d.ir = s := by rw [hg]; rfl
    have hiss' : issued s (dispatch s d)
        = issued s (updateRadar s d.radar) ++ issued s (updateDHT s d.dht) := by
      rw [hiss, h0, issued_self, List.append_nil]
    refine ⟨by rw [hi, h0], ?_, hr, ht, hh, hiss'⟩
    intro c hc
    rw [hiss'] at hc
    rcases List.mem_append.1 hc with h1 | h1
    · rw [dr c h1]; decide
    · rw [dd c h1]; decide
  · intro hg
    have h0 := updateDHT_guard s d.dht hg
    have hiss' : issued s (dispatch s d)
        = issued s (updateRadar s d.radar) ++ issued s (updateIR s d.ir) := by
      rw [hiss, h0, issued_self, List.append_nil]
    refine ⟨by rw [ht, h0], by rw [hh, h0], ?_, hr, hi, hiss'⟩
    intro c hc
    rw [hiss'] at hc
    rcases List.mem_append.1 hc with h1 | h1
    · rw [dr c h1]; decide
    · rw [di c h1]; decide

/-- Witness for C7: a response whose radar part lacks the distance, one
without `ir`, and one whose DHT part lacks the humidity, each dispatched from
the initial state. -/
theorem dispatch_skips_missing_part_witness :
    (radarGuard (some ⟨some 45, none⟩) = true
        ∧ (dispatch State.init ⟨some ⟨some 45, none⟩, some (.finite 7), some ⟨some (.finite 70), some (.finite 40)⟩⟩).radar_data
          = State.init.radar_data)
      ∧ (dispatch State.init ⟨some ⟨some 45, some 30⟩, none, some ⟨some (.finite 70), some (.finite 40)⟩⟩).ir_ydata
          = State.init.ir_ydata
      ∧ (dhtGuard (some ⟨some (.finite 70), none⟩) = true
        ∧ (dispatch State.init ⟨some ⟨some 45, some 30⟩, some (.finite 7), some ⟨some (.finite 70), none⟩⟩).dht_temp_data
          = State.init.dht_temp_data) :=
  ⟨⟨by decide,
      ((dispatch_skips_missing_part State.init
        ⟨some ⟨some 45, none⟩, some (.finite 7), some ⟨some (.finite 70), some (.finite 40)⟩⟩).1 (by decide)).1⟩,
    ((dispatch_skips_missing_part State.init
        ⟨some ⟨some 45, some 30⟩, none, some ⟨some (.finite 70), some (.finite 40)⟩⟩).2.1 rfl).1,
    ⟨by decide,
      ((dispatch_skips_missing_part State.init
        ⟨some ⟨some 45, some 30⟩, some (.finite 7), some ⟨some (.finite 70), none⟩⟩).2.2 (by decide)).1⟩⟩


end Purik
